import Mathlib

/-!
# sqsd worker: one receive / dispatch / reconcile cycle

A shallow embedding of `worker.go`.  The worker talks to three outside parties: the SQS
client, the HTTP client and the metrics client.  Every call it makes to them is recorded as
an `Event`, in program order, and their answers are supplied by an `Env`; within one cycle
each of them is called at most once, so answers that are functions of the request lose no
generality.  A Go pointer that may be nil is an `Option`, a dereference of nil ends the
function with a panic, and a deferred call is appended to the trace when the function ends
(on a return and on a panic alike).
-/

namespace Sqsd

/-! ## Machine integers -/

/-- Two-complement value of `x` in a signed integer type that is `bits` wide. -/
def wrapSigned (bits : Nat) (x : Int) : Int :=
  (x + 2 ^ (bits - 1)) % 2 ^ bits - 2 ^ (bits - 1)

/-- Go conversion `int64(x)`. -/
def toInt64 (x : Int) : Int := wrapSigned 64 x

/-- Whether `x` is a value of the signed integer type that is `bits` wide. -/
def inSigned (bits : Nat) (x : Int) : Prop :=
  -(2 ^ (bits - 1) : Int) ≤ x ∧ x < 2 ^ (bits - 1)

instance (bits : Nat) (x : Int) : Decidable (inSigned bits x) := by
  unfold inSigned; infer_instance

/-! ## `strconv.ParseInt(s, 10, 64)` -/

/-- The two error kinds of `strconv`: `ErrSyntax` and `ErrRange`. -/
inductive NumErr where
  | errSyn
  | errRng
deriving DecidableEq, Repr

deriving instance DecidableEq for Except

/-- Largest `uint64`. -/
def maxUint64 : Nat := 2 ^ 64 - 1

/-- The digit loop of `strconv.ParseUint` for base 10 and 64 bits: a byte that is not a decimal
digit is a syntax error; an accumulator that would leave `uint64` is a range error. -/
def parseUintLoop : List Char → Nat → Except NumErr Nat
  | [], n => .ok n
  | c :: cs, n =>
    if c.isDigit then
      if n ≥ maxUint64 / 10 + 1 then .error .errRng
      else
        let n1 := n * 10 + (c.toNat - 48)
        if n1 > maxUint64 then .error .errRng else parseUintLoop cs n1
    else .error .errSyn

/-- Model of `strconv.ParseUint(s, 10, 64)`: the empty string is a syntax error. -/
def ParseUint (s : List Char) : Except NumErr Nat :=
  match s with
  | [] => .error .errSyn
  | _ :: _ => parseUintLoop s 0

/-- Model of `strconv.ParseInt(s, 10, 64)`: an optional sign, then `ParseUint`, then the range
check against the cutoff `2^63`. -/
def ParseInt (s : String) : Except NumErr Int :=
  match s.data with
  | [] => .error .errSyn
  | c :: cs =>
    let neg := c == '-'
    let rest := if c == '+' || c == '-' then cs else c :: cs
    match ParseUint rest with
    | .error e => .error e
    | .ok un =>
      if !neg && un ≥ 2 ^ 63 then .error .errRng
      else if neg && un > 2 ^ 63 then .error .errRng
      else .ok (if neg then -(un : Int) else (un : Int))

/-! ## Data model -/

/-- An `sqs.Message`: every field is a pointer in the SDK, nil when the service left it out. -/
structure Message where
  ReceiptHandle : Option String
  Body : Option String
  Attributes : List (String × Option String)
deriving DecidableEq, Repr

/-- The fields of `workerConfig` that `worker.go` reads.  The declaration is outside the file;
the two integer fields are taken as values of a signed integer type `Env.intBits` wide. -/
structure Config where
  queueUrl : String
  deadQueueUrl : String
  workerUrl : String
  timeout : Int
  maxReceiveCount : Int
  elastic : Bool
deriving DecidableEq, Repr

/-- The `sqs.ReceiveMessageInput` built by `Work`. -/
structure ReceiveMessageInput where
  MaxNumberOfMessages : Int
  QueueUrl : String
  WaitTimeSeconds : Int
  VisibilityTimeout : Int
  AttributeNames : List String
deriving DecidableEq, Repr

/-- The `sqs.SendMessageInput` built by `Work`. -/
structure SendMessageInput where
  MessageBody : Option String
  QueueUrl : String
deriving DecidableEq, Repr

/-- The `sqs.DeleteMessageInput` built by `deleteMessage`. -/
structure DeleteMessageInput where
  QueueUrl : String
  ReceiptHandle : Option String
deriving DecidableEq, Repr

/-- The `http.Request` built by `handleMessage`. -/
structure Request where
  Method : String
  URL : String
  Body : String
  Header : List (String × String)
deriving DecidableEq, Repr

/-- The part of an `http.Response` that `handleMessage` reads. -/
structure Response where
  StatusCode : Int
  Status : String
  Body : String
deriving DecidableEq, Repr

/-- What a `log.Println` / `log.Printf` call prints. -/
inductive LogItem where
  | text (s : String)
  | error (e : String)
  | numError (e : NumErr)
  | message (m : Message)
deriving DecidableEq, Repr

/-- The observable effects of a cycle, in program order. -/
inductive Event where
  | log (l : LogItem)
  | receiveMessage (inp : ReceiveMessageInput)
  | httpDo (req : Request) (timeoutNanos : Int)
  | sendMessage (inp : SendMessageInput)
  | deleteMessage (inp : DeleteMessageInput)
  | statsIncr (name : String) (tags : List String)
  | statsHistogram (name : String)
  | copyToStdout (body : String)
  | closeBody
  | chanSend
deriving DecidableEq, Repr

/-- Everything `worker.go` uses and does not define: the width of the integer type of the
configuration, the global `StatsEnabled`, and the answers of the SQS client, of
`http.NewRequest` (which fails exactly when the URL does not parse) and of `http.Client.Do`.
An SQS error is `some e`, success is `none`. -/
structure Env where
  intBits : Nat
  StatsEnabled : Bool
  ReceiveMessage : ReceiveMessageInput → Except String (List Message)
  NewRequestOk : String → Bool
  Do : Request → Int → Except String Response
  SendMessage : SendMessageInput → Option String
  DeleteMessage : DeleteMessageInput → Option String

/-- How `handleMessage` ends: `nil`, a non-nil error, or a runtime panic. -/
inductive HandleResult where
  | nil
  | err (e : String)
  | panic
deriving DecidableEq, Repr

/-- How `Work` ends. -/
inductive Outcome where
  | returned
  | panicked
deriving DecidableEq, Repr

/-! ## The program -/

/-- The `VisibilityTimeout` of the receive request: `int64(workerConfig.timeout + 5)`. -/
def visibilityTimeout (cfg : Config) (env : Env) : Int :=
  toInt64 (wrapSigned env.intBits (cfg.timeout + 5))

/-- The `Timeout` of the HTTP client, in nanoseconds:
`time.Duration(workerConfig.timeout) * time.Second`. -/
def clientTimeout (cfg : Config) : Int :=
  toInt64 (toInt64 cfg.timeout * 1000000000)

/-- The time limit `http.Client` puts on a call, in nanoseconds: `Client.deadline` sets a
deadline only when `Timeout` is positive; a zero or negative `Timeout` means no limit. -/
def appliedTimeout (timeoutNanos : Int) : Option Int :=
  if 0 < timeoutNanos then some timeoutNanos else none

/-- The request `Work` passes to `client.ReceiveMessage`. -/
def receiveInput (cfg : Config) (env : Env) : ReceiveMessageInput :=
  { MaxNumberOfMessages := 1
    QueueUrl := cfg.queueUrl
    WaitTimeSeconds := 20
    VisibilityTimeout := visibilityTimeout cfg env
    AttributeNames := ["ApproximateReceiveCount"] }

/-- The request `handleMessage` posts for a message body. -/
def jobRequest (cfg : Config) (body : String) : Request :=
  { Method := "POST"
    URL := cfg.workerUrl
    Body := body
    Header := [("Content-Type", "application/json"), ("X-Aws-Sqsd-Receive-Count", "2")] }

/-- The trace of a conditional metrics call. -/
def whenStats (env : Env) (e : Event) : List Event :=
  if env.StatsEnabled then [e] else []

/-- Model of `Worker.handleMessage`.  `*msg.Body` panics on a nil body; the error of
`http.NewRequest` is not looked at, so on a URL that does not parse `req` is nil and
`req.Header.Set` panics.  The two deferred calls run in reverse order of registration, after
the status has been classified. -/
def handleMessage (cfg : Config) (env : Env) (msg : Message) : List Event × HandleResult :=
  let t0 := whenStats env (.statsIncr "received" [])
  match msg.Body with
  | none => (t0, .panic)
  | some body =>
    if env.NewRequestOk cfg.workerUrl then
      let req := jobRequest cfg body
      let t1 := t0 ++ [Event.httpDo req (clientTimeout cfg)]
      match env.Do req (clientTimeout cfg) with
      | .error e => (t1, .err e)
      | .ok res =>
        let deferred := whenStats env (.statsHistogram "response_time") ++ [Event.closeBody]
        if res.StatusCode > 299 || res.StatusCode < 200 then
          (t1 ++ whenStats env (.statsIncr "error" [res.Status])
              ++ [Event.copyToStdout res.Body] ++ deferred,
            .err ("Host returned error status (" ++ res.Status ++ ")"))
        else
          (t1 ++ whenStats env (.statsIncr "success" []) ++ deferred, .nil)
    else (t0, .panic)

/-- Model of `deleteMessage`: one delete request for the source queue; returns its error. -/
def deleteMessage (cfg : Config) (env : Env) (msg : Message) : List Event × Option String :=
  let inp : DeleteMessageInput := { QueueUrl := cfg.queueUrl, ReceiptHandle := msg.ReceiptHandle }
  ([Event.deleteMessage inp], env.DeleteMessage inp)

/-- The trace of `if err != nil { log.Println(err) }`. -/
def logIfErr (e : Option String) : List Event :=
  match e with
  | none => []
  | some s => [Event.log (.error s)]

/-- The request `Work` passes to `client.SendMessage`. -/
def deadLetterInput (cfg : Config) (msg : Message) : SendMessageInput :=
  { MessageBody := msg.Body, QueueUrl := cfg.deadQueueUrl }

/-- The branch of `Work` taken when `handleMessage` returned a non-nil error (lines 44-71). -/
def onFailure (cfg : Config) (env : Env) (msg : Message) (e : String) : List Event × Outcome :=
  let t0 := [Event.log (.error e)]
  if cfg.elastic then
    match msg.Attributes.lookup "ApproximateReceiveCount" with
    | none => (t0, .returned)
    | some none => (t0, .panicked)
    | some (some receiveCount) =>
      match ParseInt receiveCount with
      | .error pe => (t0 ++ [Event.log (.numError pe)], .returned)
      | .ok parsed =>
        if parsed ≥ toInt64 cfg.maxReceiveCount then
          let t1 := t0 ++ [Event.log (.text "Sending message to dead letter queue"),
                            Event.sendMessage (deadLetterInput cfg msg)]
          match env.SendMessage (deadLetterInput cfg msg) with
          | some se => (t1 ++ [Event.log (.error se)], .returned)
          | none =>
            let d := deleteMessage cfg env msg
            (t1 ++ d.1 ++ logIfErr d.2, .returned)
        else (t0, .returned)
  else (t0, .returned)

/-- The body of `Work` before its deferred `ch <- w`. -/
def workBody (cfg : Config) (env : Env) : List Event × Outcome :=
  let t0 := [Event.log (.text "Requesting message"), Event.receiveMessage (receiveInput cfg env)]
  match env.ReceiveMessage (receiveInput cfg env) with
  | .error e => (t0 ++ [Event.log (.error e)], .returned)
  | .ok [] => (t0, .returned)
  | .ok (msg :: _) =>
    let t1 := t0 ++ [Event.log (.message msg)]
    let h := handleMessage cfg env msg
    match h.2 with
    | .panic => (t1 ++ h.1, .panicked)
    | .err e =>
      let f := onFailure cfg env msg e
      (t1 ++ h.1 ++ f.1, f.2)
    | .nil =>
      let d := deleteMessage cfg env msg
      (t1 ++ h.1 ++ d.1 ++ logIfErr d.2, .returned)

/-- Model of `Worker.Work`: the body, then the deferred send of the worker on the completion
channel, which runs on a return and on a panic alike. -/
def Work (cfg : Config) (env : Env) : List Event × Outcome :=
  let b := workBody cfg env
  (b.1 ++ [Event.chanSend], b.2)

/-! ## Projections of a trace -/

/-- Whether an event is a call to the queue or to the HTTP endpoint. -/
def Event.isQueueOrHttp : Event → Bool
  | .receiveMessage _ => true
  | .httpDo _ _ => true
  | .sendMessage _ => true
  | .deleteMessage _ => true
  | _ => false

/-- Whether an event is a call to the queue. -/
def Event.isQueue : Event → Bool
  | .receiveMessage _ => true
  | .sendMessage _ => true
  | .deleteMessage _ => true
  | _ => false

/-- Whether an event is a `response_time` histogram sample. -/
def Event.isResponseTime : Event → Bool
  | .statsHistogram name => name == "response_time"
  | _ => false

/-- Whether an event is an increment of the `error` counter. -/
def Event.isErrorIncr : Event → Bool
  | .statsIncr name _ => name == "error"
  | _ => false

/-! ## Scenarios -/

/-- A configuration with threshold 3, a job timeout of 30 and dead-letter emulation on. -/
def scenarioConfig : Config :=
  { queueUrl := "https://sqs.local/jobs"
    deadQueueUrl := "https://sqs.local/jobs-dead"
    workerUrl := "http://localhost:8080/job"
    timeout := 30
    maxReceiveCount := 3
    elastic := true }

/-- A message whose `ApproximateReceiveCount` attribute is the given text. -/
def scenarioMessage (count : String) : Message :=
  { ReceiptHandle := some "handle-1"
    Body := some "payload"
    Attributes := [("ApproximateReceiveCount", some count)] }

/-- One rejection of `url.Parse`, on which `http.NewRequest` returns a nil request and an
error: a URL whose first byte is a colon has no protocol scheme. -/
def missingProtocolScheme (url : String) : Bool :=
  match url.data with
  | c :: _ => c == ':'
  | [] => false

/-- An environment on a 64-bit target with metrics on: the queue delivers `msgs`, the HTTP
call ends as `answer`, the dead-letter send ends as `sendErr`, every delete succeeds. -/
def scenarioEnv (msgs : List Message) (answer : Except String Response)
    (sendErr : Option String) : Env :=
  { intBits := 64
    StatsEnabled := true
    ReceiveMessage := fun _ => .ok msgs
    NewRequestOk := fun url => !missingProtocolScheme url
    Do := fun _ _ => answer
    SendMessage := fun _ => sendErr
    DeleteMessage := fun _ => none }

/-- An HTTP response with the given status code and status line. -/
def scenarioResponse (code : Int) (status : String) : Except String Response :=
  .ok { StatusCode := code, Status := status, Body := "" }

/-- The scenario configuration with a job endpoint URL that `url.Parse` rejects. -/
def badUrlConfig : Config := { scenarioConfig with workerUrl := "://localhost:8080/job" }

/-- The scenario configuration with dead-letter emulation off. -/
def plainConfig : Config := { scenarioConfig with elastic := false }

/-- An environment whose receive call returns an error. -/
def receiveErrorEnv : Env :=
  { scenarioEnv [] (scenarioResponse 200 "200 OK") none with
    ReceiveMessage := fun _ => .error "RequestError: send request failed" }

/-- The environment of a cycle that receives one message with the given receive count and
whose job endpoint answers 200. -/
def acceptingEnv (count : String) : Env :=
  scenarioEnv [scenarioMessage count] (scenarioResponse 200 "200 OK") none

/-- The environment of a cycle that receives one message with the given receive count and
whose job endpoint answers 500; the dead-letter send ends as `sendErr`. -/
def rejectingEnv (count : String) (sendErr : Option String) : Env :=
  scenarioEnv [scenarioMessage count] (scenarioResponse 500 "500 Internal Server Error") sendErr

/-- The scenario configuration with a job timeout of zero. -/
def zeroTimeoutConfig : Config := { scenarioConfig with timeout := 0 }

/-- The scenario configuration with a job timeout whose nanosecond count leaves `int64`. -/
def longTimeoutConfig : Config := { scenarioConfig with timeout := 9223372037 }

/-! ## Auxiliary facts -/

theorem toInt64_of_inSigned (x : Int) (h : inSigned 64 x) : toInt64 x = x := by
  unfold inSigned at h
  unfold toInt64 wrapSigned
  norm_num at h ⊢
  omega

theorem wrapSigned_of_inSigned (bits : Nat) (x : Int) (hb : 1 ≤ bits) (h : inSigned bits x) :
    wrapSigned bits x = x := by
  unfold inSigned at h
  unfold wrapSigned
  have hpow : (2 : Int) ^ bits = 2 * 2 ^ (bits - 1) := by
    obtain ⟨k, rfl⟩ : ∃ k, bits = k + 1 := ⟨bits - 1, by omega⟩
    simp [pow_succ, mul_comm]
  have hlt : x + 2 ^ (bits - 1) < 2 ^ bits := by rw [hpow]; linarith [h.2]
  have hge : 0 ≤ x + 2 ^ (bits - 1) := by linarith [h.1]
  rw [Int.emod_eq_of_lt hge hlt]
  ring

theorem inSigned_mono (b : Nat) (x : Int) (hb : b ≤ 64) (h : inSigned b x) : inSigned 64 x := by
  unfold inSigned at h ⊢
  have hp : (2 : Int) ^ (b - 1) ≤ 2 ^ (64 - 1) :=
    pow_le_pow_right₀ (by norm_num) (by omega)
  constructor <;> linarith [h.1, h.2]

theorem handleMessage_no_queue (cfg : Config) (env : Env) (msg : Message) :
    (handleMessage cfg env msg).1.filter Event.isQueue = [] := by
  unfold handleMessage whenStats
  cases env.StatsEnabled <;> cases msg.Body <;> simp only [] <;>
    repeat' (first | split | simp [Event.isQueue])

theorem logIfErr_no_queue (e : Option String) :
    (logIfErr e).filter Event.isQueueOrHttp = [] ∧ (logIfErr e).filter Event.isQueue = [] := by
  cases e <;> simp [logIfErr, Event.isQueueOrHttp, Event.isQueue]

theorem Work_trace_of_failure (cfg : Config) (env : Env) (msg : Message) (rest : List Message)
    (e : String)
    (hrecv : env.ReceiveMessage (receiveInput cfg env) = .ok (msg :: rest))
    (herr : (handleMessage cfg env msg).2 = .err e) :
    Work cfg env =
      ([Event.log (.text "Requesting message"), Event.receiveMessage (receiveInput cfg env),
          Event.log (.message msg)] ++ (handleMessage cfg env msg).1
          ++ (onFailure cfg env msg e).1 ++ [Event.chanSend],
        (onFailure cfg env msg e).2) := by
  unfold Work workBody
  simp [hrecv, herr]

theorem Work_queue_of_failure (cfg : Config) (env : Env) (msg : Message) (rest : List Message)
    (e : String)
    (hrecv : env.ReceiveMessage (receiveInput cfg env) = .ok (msg :: rest))
    (herr : (handleMessage cfg env msg).2 = .err e) :
    (Work cfg env).1.filter Event.isQueue =
      Event.receiveMessage (receiveInput cfg env)
        :: (onFailure cfg env msg e).1.filter Event.isQueue := by
  rw [Work_trace_of_failure cfg env msg rest e hrecv herr]
  simp [List.filter_append, handleMessage_no_queue, Event.isQueue]

theorem ParseInt_ok_inSigned (s : String) (v : Int) (h : ParseInt s = .ok v) : inSigned 64 v := by
  unfold ParseInt at h
  split at h
  · simp at h
  · rename_i c cs _
    simp only [] at h
    split at h
    · simp at h
    · rename_i un _
      split at h
      · simp at h
      · split at h
        · simp at h
        · rename_i h1 h2
          simp only [Except.ok.injEq] at h
          subst h
          unfold inSigned
          by_cases hneg : (c == '-') = true
          · simp [hneg] at h1 h2 ⊢
            omega
          · simp [hneg] at h1 h2 ⊢
            omega

theorem logIfErr_mem (o : Option String) (x : Event) (hx : x ∈ logIfErr o) :
    ∃ se, x = Event.log (.error se) := by
  cases o with
  | none => simp [logIfErr] at hx
  | some v => exact ⟨v, by simpa [logIfErr] using hx⟩

theorem handleMessage_mem (cfg : Config) (env : Env) (msg : Message) (x : Event)
    (hx : x ∈ (handleMessage cfg env msg).1) :
    (∀ inp, x ≠ Event.receiveMessage inp) ∧
      ∀ req t, x = Event.httpDo req t → t = clientTimeout cfg := by
  revert hx
  unfold handleMessage whenStats
  repeat' (first | split | (intro hx; simp at hx <;> aesop))

theorem onFailure_mem (cfg : Config) (env : Env) (msg : Message) (e : String) (x : Event)
    (hx : x ∈ (onFailure cfg env msg e).1) :
    (∀ inp, x ≠ Event.receiveMessage inp) ∧ ∀ req t, x ≠ Event.httpDo req t := by
  revert hx
  unfold onFailure deleteMessage logIfErr
  repeat' (first | split | (intro hx; simp at hx; aesop))

theorem Work_mem (cfg : Config) (env : Env) (x : Event) (hx : x ∈ (Work cfg env).1) :
    (∀ inp, x = Event.receiveMessage inp → inp = receiveInput cfg env) ∧
      ∀ req t, x = Event.httpDo req t → t = clientTimeout cfg := by
  unfold Work workBody at hx
  cases hrecv : env.ReceiveMessage (receiveInput cfg env) with
  | error e => simp [hrecv] at hx; aesop
  | ok msgs =>
    cases msgs with
    | nil => simp [hrecv] at hx; aesop
    | cons msg rest =>
      have hh := handleMessage_mem cfg env msg x
      cases hres : (handleMessage cfg env msg).2 with
      | panic => simp [hrecv, hres] at hx; aesop
      | nil =>
        simp [hrecv, hres, deleteMessage] at hx
        have hl := logIfErr_mem (env.DeleteMessage
            { QueueUrl := cfg.queueUrl, ReceiptHandle := msg.ReceiptHandle }) x
        aesop
      | err e =>
        have hf := onFailure_mem cfg env msg e x
        simp [hrecv, hres] at hx
        aesop

theorem onFailure_delete_after_send (cfg : Config) (env : Env) (msg : Message) (e : String)
    (d : DeleteMessageInput) (hd : Event.deleteMessage d ∈ (onFailure cfg env msg e).1) :
    env.SendMessage (deadLetterInput cfg msg) = none ∧
      ∃ pre post, (onFailure cfg env msg e).1 = pre ++ Event.sendMessage (deadLetterInput cfg msg) :: post
        ∧ Event.deleteMessage d ∈ post := by
  have key : cfg.elastic = true ∧ ∃ s v,
      msg.Attributes.lookup "ApproximateReceiveCount" = some (some s) ∧ ParseInt s = .ok v ∧
        toInt64 cfg.maxReceiveCount ≤ v ∧ env.SendMessage (deadLetterInput cfg msg) = none := by
    unfold onFailure at hd
    split at hd
    · rename_i hel
      split at hd
      · simp at hd
      · simp at hd
      · rename_i _ s hs
        split at hd
        · simp at hd
        · rename_i _ v hp
          split at hd
          · rename_i hge
            cases hsend : env.SendMessage (deadLetterInput cfg msg) with
            | some se => simp [hsend] at hd
            | none => exact ⟨hel, s, v, hs, hp, hge, rfl⟩
          · simp at hd
    · simp at hd
  obtain ⟨hel, s, v, hs, hp, hge, hsend⟩ := key
  refine ⟨hsend, [Event.log (.error e),
    Event.log (.text "Sending message to dead letter queue")],
    (deleteMessage cfg env msg).1 ++ logIfErr (deleteMessage cfg env msg).2, ?_, ?_⟩
  · simp [onFailure, hel, hs, hp, hge, hsend]
  · simpa [onFailure, hel, hs, hp, hge, hsend] using hd

theorem Work_chanSend_once (cfg : Config) (env : Env) :
    (Work cfg env).1.count Event.chanSend = 1 := by
  have hbody : ∀ x ∈ (workBody cfg env).1, x ≠ Event.chanSend := by
    intro x hx
    unfold workBody at hx
    cases hrecv : env.ReceiveMessage (receiveInput cfg env) with
    | error e => simp [hrecv] at hx; aesop
    | ok msgs =>
      cases msgs with
      | nil => simp [hrecv] at hx; aesop
      | cons msg rest =>
        have hh : x ∈ (handleMessage cfg env msg).1 → x ≠ Event.chanSend := by
          unfold handleMessage whenStats
          repeat' (first | split | (intro hx; simp at hx <;> aesop))
        cases hres : (handleMessage cfg env msg).2 with
        | panic => simp [hrecv, hres] at hx; aesop
        | nil =>
          simp [hrecv, hres, deleteMessage] at hx
          have hl := logIfErr_mem (env.DeleteMessage
              { QueueUrl := cfg.queueUrl, ReceiptHandle := msg.ReceiptHandle }) x
          aesop
        | err e =>
          have hf : x ∈ (onFailure cfg env msg e).1 → x ≠ Event.chanSend := by
            unfold onFailure deleteMessage logIfErr
            repeat' (first | split | (intro hx; simp at hx; aesop))
          simp [hrecv, hres] at hx
          aesop
  unfold Work
  simp only [List.count_append]
  have h0 : (workBody cfg env).1.count Event.chanSend = 0 :=
    List.count_eq_zero.mpr (fun hmem => hbody _ hmem rfl)
  simp [h0]

theorem Work_panics_on_rejected_url (cfg : Config) (env : Env) (msg : Message)
    (rest : List Message)
    (hrecv : env.ReceiveMessage (receiveInput cfg env) = .ok (msg :: rest))
    (hurl : env.NewRequestOk cfg.workerUrl = false) :
    (Work cfg env).2 = .panicked := by
  have hp : (handleMessage cfg env msg).2 = .panic := by
    unfold handleMessage
    cases msg.Body <;> simp [hurl]
  unfold Work workBody
  simp [hrecv, hp]

/-! ## The reconciliation policy -/

/-- C1: when the dispatch of the received message returns nil, the queue calls of the cycle
are the receive followed by exactly one delete, addressed to the source queue URL with the
receipt handle of that message; there is no send, whatever the configuration is. -/
theorem Work_success_deletes_once (cfg : Config) (env : Env) (msg : Message)
    (rest : List Message)
    (hrecv : env.ReceiveMessage (receiveInput cfg env) = .ok (msg :: rest))
    (hok : (handleMessage cfg env msg).2 = .nil) :
    (Work cfg env).1.filter Event.isQueue =
      [Event.receiveMessage (receiveInput cfg env),
        Event.deleteMessage { QueueUrl := cfg.queueUrl, ReceiptHandle := msg.ReceiptHandle }] := by
  unfold Work workBody
  simp [hrecv, hok, List.filter_append, handleMessage_no_queue, deleteMessage,
    logIfErr_no_queue, Event.isQueue]

theorem Work_success_deletes_once_witness :
    (acceptingEnv "7").ReceiveMessage (receiveInput scenarioConfig (acceptingEnv "7"))
        = .ok [scenarioMessage "7"] ∧
      (handleMessage scenarioConfig (acceptingEnv "7") (scenarioMessage "7")).2 = .nil ∧
      (Work scenarioConfig (acceptingEnv "7")).1.filter Event.isQueue =
        [Event.receiveMessage (receiveInput scenarioConfig (acceptingEnv "7")),
          Event.deleteMessage
            { QueueUrl := scenarioConfig.queueUrl,
              ReceiptHandle := (scenarioMessage "7").ReceiptHandle }] :=
  ⟨rfl, by decide,
    Work_success_deletes_once scenarioConfig (acceptingEnv "7") (scenarioMessage "7") [] rfl
      (by decide)⟩

/-- C3: when the dispatch fails and dead-letter emulation is off, the receive is the only
queue call of the cycle: no delete and no send, whatever the attributes and threshold are. -/
theorem Work_failure_not_elastic (cfg : Config) (env : Env) (msg : Message)
    (rest : List Message) (e : String)
    (hrecv : env.ReceiveMessage (receiveInput cfg env) = .ok (msg :: rest))
    (herr : (handleMessage cfg env msg).2 = .err e)
    (hoff : cfg.elastic = false) :
    (Work cfg env).1.filter Event.isQueue = [Event.receiveMessage (receiveInput cfg env)] := by
  rw [Work_queue_of_failure cfg env msg rest e hrecv herr]
  simp [onFailure, hoff, Event.isQueue]

theorem Work_failure_not_elastic_witness :
    (handleMessage plainConfig (rejectingEnv "9" none) (scenarioMessage "9")).2
        = .err "Host returned error status (500 Internal Server Error)" ∧
      plainConfig.elastic = false ∧
      (Work plainConfig (rejectingEnv "9" none)).1.filter Event.isQueue =
        [Event.receiveMessage (receiveInput plainConfig (rejectingEnv "9" none))] :=
  ⟨by decide, rfl,
    Work_failure_not_elastic plainConfig (rejectingEnv "9" none) (scenarioMessage "9") []
      "Host returned error status (500 Internal Server Error)" rfl (by decide) rfl⟩

/-- C6: when the receive call returns an error or an empty list of messages, the receive is
the only call of the cycle to the queue or to the HTTP endpoint. -/
theorem Work_no_message (cfg : Config) (env : Env)
    (hrecv : (∃ e, env.ReceiveMessage (receiveInput cfg env) = .error e) ∨
      env.ReceiveMessage (receiveInput cfg env) = .ok []) :
    (Work cfg env).1.filter Event.isQueueOrHttp =
      [Event.receiveMessage (receiveInput cfg env)] := by
  unfold Work workBody
  rcases hrecv with ⟨e, he⟩ | he <;> simp [he, Event.isQueueOrHttp]

theorem Work_no_message_witness :
    (Work scenarioConfig receiveErrorEnv).1.filter Event.isQueueOrHttp =
        [Event.receiveMessage (receiveInput scenarioConfig receiveErrorEnv)] ∧
      (Work scenarioConfig (scenarioEnv [] (scenarioResponse 200 "200 OK") none)).1.filter
          Event.isQueueOrHttp =
        [Event.receiveMessage (receiveInput scenarioConfig
          (scenarioEnv [] (scenarioResponse 200 "200 OK") none))] :=
  ⟨Work_no_message scenarioConfig receiveErrorEnv
      (Or.inl ⟨"RequestError: send request failed", rfl⟩),
    Work_no_message scenarioConfig (scenarioEnv [] (scenarioResponse 200 "200 OK") none)
      (Or.inr rfl)⟩

/-- C2 (as amended): when the dispatch fails, dead-letter emulation is on and the receive-count
attribute parses to a value at or above the threshold, the cycle issues exactly one send of
the original body to the dead-letter queue URL; when that send succeeds it is followed by
exactly one delete of the original message, and when it fails there is no delete.  The
threshold is a Go integer, so it lies in the int64 range. -/
theorem Work_failure_dead_letter (cfg : Config) (env : Env) (msg : Message)
    (rest : List Message) (e s : String) (v : Int)
    (hrecv : env.ReceiveMessage (receiveInput cfg env) = .ok (msg :: rest))
    (herr : (handleMessage cfg env msg).2 = .err e)
    (hon : cfg.elastic = true)
    (hmax : inSigned 64 cfg.maxReceiveCount)
    (hs : msg.Attributes.lookup "ApproximateReceiveCount" = some (some s))
    (hv : ParseInt s = .ok v)
    (hge : cfg.maxReceiveCount ≤ v) :
    (Work cfg env).1.filter Event.isQueue =
      [Event.receiveMessage (receiveInput cfg env),
        Event.sendMessage { MessageBody := msg.Body, QueueUrl := cfg.deadQueueUrl }]
      ++ (match env.SendMessage { MessageBody := msg.Body, QueueUrl := cfg.deadQueueUrl } with
          | none =>
            [Event.deleteMessage { QueueUrl := cfg.queueUrl, ReceiptHandle := msg.ReceiptHandle }]
          | some _ => []) := by
  rw [Work_queue_of_failure cfg env msg rest e hrecv herr]
  have hge2 : toInt64 cfg.maxReceiveCount ≤ v := by
    rw [toInt64_of_inSigned cfg.maxReceiveCount hmax]; exact hge
  cases hsend : env.SendMessage { MessageBody := msg.Body, QueueUrl := cfg.deadQueueUrl } with
  | none =>
    simp [onFailure, hon, hs, hv, hge2, deadLetterInput, hsend, deleteMessage,
      List.filter_append, logIfErr_no_queue, Event.isQueue]
  | some se =>
    simp [onFailure, hon, hs, hv, hge2, deadLetterInput, hsend, Event.isQueue]

theorem Work_failure_dead_letter_witness :
    (handleMessage scenarioConfig (rejectingEnv "3" none) (scenarioMessage "3")).2
        = .err "Host returned error status (500 Internal Server Error)" ∧
      ParseInt "3" = .ok 3 ∧ scenarioConfig.maxReceiveCount ≤ 3 ∧
      (Work scenarioConfig (rejectingEnv "3" none)).1.filter Event.isQueue =
        [Event.receiveMessage (receiveInput scenarioConfig (rejectingEnv "3" none)),
          Event.sendMessage
            { MessageBody := some "payload", QueueUrl := "https://sqs.local/jobs-dead" },
          Event.deleteMessage
            { QueueUrl := "https://sqs.local/jobs", ReceiptHandle := some "handle-1" }] :=
  ⟨by decide, by decide, by decide,
    Work_failure_dead_letter scenarioConfig (rejectingEnv "3" none) (scenarioMessage "3") []
      "Host returned error status (500 Internal Server Error)" "3" 3 rfl (by decide) rfl
      (by decide) (by decide) (by decide) (by decide)⟩

/-- C2 fails as stated: with threshold 3, emulation on, a 500 answer, attribute "3" and a
dead-letter send that returns an error, the cycle issues the send and no delete. -/
theorem Work_dead_letter_send_error_no_delete :
    (handleMessage scenarioConfig
        (scenarioEnv [scenarioMessage "3"] (scenarioResponse 500 "500 Internal Server Error")
          (some "dead queue unavailable")) (scenarioMessage "3")).2
        = .err "Host returned error status (500 Internal Server Error)" ∧
      scenarioConfig.elastic = true ∧
      ParseInt "3" = .ok 3 ∧
      scenarioConfig.maxReceiveCount ≤ 3 ∧
      (Work scenarioConfig
        (scenarioEnv [scenarioMessage "3"] (scenarioResponse 500 "500 Internal Server Error")
          (some "dead queue unavailable"))).1.filter Event.isQueue
        ≠ [Event.receiveMessage (receiveInput scenarioConfig
              (scenarioEnv [scenarioMessage "3"]
                (scenarioResponse 500 "500 Internal Server Error")
                (some "dead queue unavailable"))),
            Event.sendMessage
              { MessageBody := some "payload", QueueUrl := "https://sqs.local/jobs-dead" },
            Event.deleteMessage
              { QueueUrl := "https://sqs.local/jobs", ReceiptHandle := some "handle-1" }] := by
  decide

/-- C10: when the dispatch fails and the dead-letter send is due (emulation on, receive count
at or above the threshold) but returns an error, the queue calls of the cycle are the receive
and that one send, with no delete; and in every cycle with a failed dispatch, a delete in the
trace comes after a send of the message body to the dead-letter queue that succeeded. -/
theorem Work_delete_only_after_send (cfg : Config) (env : Env) (msg : Message)
    (rest : List Message) (e : String)
    (hrecv : env.ReceiveMessage (receiveInput cfg env) = .ok (msg :: rest))
    (herr : (handleMessage cfg env msg).2 = .err e) :
    (∀ s v se, cfg.elastic = true → inSigned 64 cfg.maxReceiveCount →
        msg.Attributes.lookup "ApproximateReceiveCount" = some (some s) →
        ParseInt s = .ok v → cfg.maxReceiveCount ≤ v →
        env.SendMessage { MessageBody := msg.Body, QueueUrl := cfg.deadQueueUrl } = some se →
        (Work cfg env).1.filter Event.isQueue =
          [Event.receiveMessage (receiveInput cfg env),
            Event.sendMessage { MessageBody := msg.Body, QueueUrl := cfg.deadQueueUrl }]) ∧
      (∀ d, Event.deleteMessage d ∈ (Work cfg env).1 →
        env.SendMessage { MessageBody := msg.Body, QueueUrl := cfg.deadQueueUrl } = none ∧
        ∃ pre post, (Work cfg env).1 =
            pre ++ Event.sendMessage { MessageBody := msg.Body, QueueUrl := cfg.deadQueueUrl }
              :: post ∧
          Event.deleteMessage d ∈ post) := by
  constructor
  · intro s v se hon hmax hs hv hge hsend
    rw [Work_queue_of_failure cfg env msg rest e hrecv herr]
    have hge2 : toInt64 cfg.maxReceiveCount ≤ v := by
      rw [toInt64_of_inSigned cfg.maxReceiveCount hmax]; exact hge
    simp [onFailure, hon, hs, hv, hge2, deadLetterInput, hsend, Event.isQueue]
  · intro d hd
    rw [Work_trace_of_failure cfg env msg rest e hrecv herr] at hd ⊢
    have hnot : Event.deleteMessage d ∉ (handleMessage cfg env msg).1 := by
      intro hmem
      have hf : Event.deleteMessage d ∈ (handleMessage cfg env msg).1.filter Event.isQueue :=
        List.mem_filter.mpr ⟨hmem, rfl⟩
      rw [handleMessage_no_queue] at hf
      simp at hf
    have hin : Event.deleteMessage d ∈ (onFailure cfg env msg e).1 := by
      simp at hd
      tauto
    obtain ⟨hsend, pre, post, hsplit, hpost⟩ := onFailure_delete_after_send cfg env msg e d hin
    refine ⟨hsend, [Event.log (.text "Requesting message"),
      Event.receiveMessage (receiveInput cfg env), Event.log (.message msg)]
      ++ (handleMessage cfg env msg).1 ++ pre, post ++ [Event.chanSend], ?_, ?_⟩
    · simp only [hsplit, deadLetterInput]
      simp
    · simp [hpost]

theorem Work_delete_only_after_send_witness :
    ((rejectingEnv "4" (some "dead queue unavailable")).SendMessage
          { MessageBody := (scenarioMessage "4").Body, QueueUrl := scenarioConfig.deadQueueUrl }
        = some "dead queue unavailable" ∧
      (Work scenarioConfig (rejectingEnv "4" (some "dead queue unavailable"))).1.filter
          Event.isQueue =
        [Event.receiveMessage
            (receiveInput scenarioConfig (rejectingEnv "4" (some "dead queue unavailable"))),
          Event.sendMessage
            { MessageBody := (scenarioMessage "4").Body,
              QueueUrl := scenarioConfig.deadQueueUrl }]) ∧
      (Event.deleteMessage
          { QueueUrl := "https://sqs.local/jobs", ReceiptHandle := some "handle-1" }
          ∈ (Work scenarioConfig (rejectingEnv "4" none)).1 ∧
        (rejectingEnv "4" none).SendMessage
          { MessageBody := (scenarioMessage "4").Body, QueueUrl := scenarioConfig.deadQueueUrl }
          = none) :=
  ⟨⟨rfl,
      (Work_delete_only_after_send scenarioConfig
        (rejectingEnv "4" (some "dead queue unavailable")) (scenarioMessage "4") []
        "Host returned error status (500 Internal Server Error)" rfl (by decide)).1
        "4" 4 "dead queue unavailable" rfl (by decide) (by decide) (by decide) (by decide) rfl⟩,
    ⟨by decide,
      ((Work_delete_only_after_send scenarioConfig (rejectingEnv "4" none) (scenarioMessage "4")
        [] "Host returned error status (500 Internal Server Error)" rfl (by decide)).2
        { QueueUrl := "https://sqs.local/jobs", ReceiptHandle := some "handle-1" }
        (by decide)).1⟩⟩

/-! ## The dispatcher -/

/-- C5: `handleMessage` returns nil exactly when the HTTP call was made, ended without a
transport error and answered with a status code in 200..299; a response with any other status
code gives the error "Host returned error status (STATUS)", and a transport error is
returned as it is. -/
theorem handleMessage_classification (cfg : Config) (env : Env) (msg : Message) :
    ((handleMessage cfg env msg).2 = .nil ↔
        ∃ body res, msg.Body = some body ∧ env.NewRequestOk cfg.workerUrl = true ∧
          env.Do (jobRequest cfg body) (clientTimeout cfg) = .ok res ∧
          200 ≤ res.StatusCode ∧ res.StatusCode ≤ 299) ∧
      (∀ body res, msg.Body = some body → env.NewRequestOk cfg.workerUrl = true →
          env.Do (jobRequest cfg body) (clientTimeout cfg) = .ok res →
          ¬ (200 ≤ res.StatusCode ∧ res.StatusCode ≤ 299) →
          (handleMessage cfg env msg).2
            = .err ("Host returned error status (" ++ res.Status ++ ")")) ∧
      (∀ body e, msg.Body = some body → env.NewRequestOk cfg.workerUrl = true →
          env.Do (jobRequest cfg body) (clientTimeout cfg) = .error e →
          (handleMessage cfg env msg).2 = .err e) := by
  refine ⟨?_, ?_, ?_⟩
  · unfold handleMessage
    cases hb : msg.Body with
    | none => simp
    | some body =>
      cases hu : env.NewRequestOk cfg.workerUrl with
      | false => simp
      | true =>
        cases hd : env.Do (jobRequest cfg body) (clientTimeout cfg) with
        | error e => simp [hd]
        | ok res =>
          by_cases hc : res.StatusCode > 299 ∨ res.StatusCode < 200
          · have : ¬ (200 ≤ res.StatusCode ∧ res.StatusCode ≤ 299) := by omega
            simp [hd, hc, this]
          · have h2 : 200 ≤ res.StatusCode ∧ res.StatusCode ≤ 299 := by omega
            simp [hd, hc, h2]
  · intro body res hb hu hd hc
    have hc2 : res.StatusCode > 299 ∨ res.StatusCode < 200 := by omega
    unfold handleMessage
    simp [hb, hu, hd, hc2]
  · intro body e hb hu hd
    unfold handleMessage
    simp [hb, hu, hd]

theorem handleMessage_classification_witness :
    (handleMessage scenarioConfig (acceptingEnv "1") (scenarioMessage "1")).2 = .nil ∧
      (handleMessage scenarioConfig (rejectingEnv "1" none) (scenarioMessage "1")).2
        = .err ("Host returned error status (" ++ "500 Internal Server Error" ++ ")") ∧
      (handleMessage scenarioConfig
          (scenarioEnv [] (scenarioResponse 199 "199 Odd") none) (scenarioMessage "1")).2
        = .err ("Host returned error status (" ++ "199 Odd" ++ ")") ∧
      (handleMessage scenarioConfig
          (scenarioEnv [] (scenarioResponse 300 "300 Multiple Choices") none)
          (scenarioMessage "1")).2
        = .err ("Host returned error status (" ++ "300 Multiple Choices" ++ ")") ∧
      (handleMessage scenarioConfig
          (scenarioEnv [] (.error "net/http: request canceled") none) (scenarioMessage "1")).2
        = .err "net/http: request canceled" :=
  ⟨(handleMessage_classification scenarioConfig (acceptingEnv "1") (scenarioMessage "1")).1.mpr
      ⟨"payload", { StatusCode := 200, Status := "200 OK", Body := "" }, rfl, rfl, rfl,
        by decide, by decide⟩,
    (handleMessage_classification scenarioConfig (rejectingEnv "1" none)
      (scenarioMessage "1")).2.1 "payload"
      { StatusCode := 500, Status := "500 Internal Server Error", Body := "" } rfl rfl rfl
      (by decide),
    (handleMessage_classification scenarioConfig
      (scenarioEnv [] (scenarioResponse 199 "199 Odd") none) (scenarioMessage "1")).2.1 "payload"
      { StatusCode := 199, Status := "199 Odd", Body := "" } rfl rfl rfl (by decide),
    (handleMessage_classification scenarioConfig
      (scenarioEnv [] (scenarioResponse 300 "300 Multiple Choices") none)
      (scenarioMessage "1")).2.1 "payload"
      { StatusCode := 300, Status := "300 Multiple Choices", Body := "" } rfl rfl rfl (by decide),
    (handleMessage_classification scenarioConfig
      (scenarioEnv [] (.error "net/http: request canceled") none) (scenarioMessage "1")).2.2
      "payload" "net/http: request canceled" rfl rfl rfl⟩

/-- C8 (as amended): with metrics on, every call of `handleMessage` in which the HTTP call
returns a response records exactly one `response_time` sample, for a 2xx and a non-2xx status
alike, and a non-nil result then increments the `error` counter once, tagged with the status
description. -/
theorem handleMessage_metrics_on_response (cfg : Config) (env : Env) (msg : Message)
    (body : String) (res : Response)
    (hstats : env.StatsEnabled = true)
    (hbody : msg.Body = some body)
    (hurl : env.NewRequestOk cfg.workerUrl = true)
    (hdo : env.Do (jobRequest cfg body) (clientTimeout cfg) = .ok res) :
    (handleMessage cfg env msg).1.filter Event.isResponseTime
        = [Event.statsHistogram "response_time"] ∧
      ((handleMessage cfg env msg).2 ≠ .nil →
        (handleMessage cfg env msg).1.filter Event.isErrorIncr
          = [Event.statsIncr "error" [res.Status]]) := by
  unfold handleMessage whenStats
  by_cases hc : res.StatusCode > 299 ∨ res.StatusCode < 200
  · simp [hstats, hbody, hurl, hdo, hc, List.filter_append, Event.isResponseTime,
      Event.isErrorIncr]
  · simp [hstats, hbody, hurl, hdo, hc, List.filter_append, Event.isResponseTime,
      Event.isErrorIncr]

theorem handleMessage_metrics_on_response_witness :
    (rejectingEnv "1" none).StatsEnabled = true ∧
      (handleMessage scenarioConfig (rejectingEnv "1" none) (scenarioMessage "1")).1.filter
          Event.isResponseTime = [Event.statsHistogram "response_time"] ∧
      (handleMessage scenarioConfig (rejectingEnv "1" none) (scenarioMessage "1")).1.filter
          Event.isErrorIncr = [Event.statsIncr "error" ["500 Internal Server Error"]] :=
  ⟨rfl,
    (handleMessage_metrics_on_response scenarioConfig (rejectingEnv "1" none)
      (scenarioMessage "1") "payload"
      { StatusCode := 500, Status := "500 Internal Server Error", Body := "" }
      rfl rfl rfl rfl).1,
    (handleMessage_metrics_on_response scenarioConfig (rejectingEnv "1" none)
      (scenarioMessage "1") "payload"
      { StatusCode := 500, Status := "500 Internal Server Error", Body := "" }
      rfl rfl rfl rfl).2 (by decide)⟩

/-- C8 fails as stated: with metrics on and an HTTP call that ends in a transport error,
`handleMessage` returns that error and records neither a `response_time` sample nor an
increment of the `error` counter. -/
theorem handleMessage_transport_error_no_sample :
    (scenarioEnv [] (.error "dial tcp: connection refused") none).StatsEnabled = true ∧
      (handleMessage scenarioConfig (scenarioEnv [] (.error "dial tcp: connection refused") none)
          (scenarioMessage "1")).2 = .err "dial tcp: connection refused" ∧
      ((handleMessage scenarioConfig (scenarioEnv [] (.error "dial tcp: connection refused") none)
          (scenarioMessage "1")).1.filter Event.isResponseTime).length ≠ 1 ∧
      (handleMessage scenarioConfig (scenarioEnv [] (.error "dial tcp: connection refused") none)
          (scenarioMessage "1")).1.filter Event.isErrorIncr = [] := by
  decide

/-! ## The receive request and the timeouts -/

/-- C9 (as amended): every receive request of a cycle asks for 1 message of the source queue,
waits 20 seconds, names the attribute ApproximateReceiveCount and carries the visibility
timeout `int64(timeout + 5)`; and for a positive timeout for which `timeout + 5` does not
overflow the integer type of the configuration (at most 64 bits wide) and whose nanosecond
count `timeout * 10^9` fits an int64, the visibility timeout is `timeout + 5`, the time limit
the HTTP client applies to every HTTP call of the cycle is `timeout` seconds, and the
visibility timeout exceeds it by exactly 5 seconds. -/
theorem Work_receive_parameters (cfg : Config) (env : Env) :
    (∀ inp, Event.receiveMessage inp ∈ (Work cfg env).1 →
        inp.MaxNumberOfMessages = 1 ∧ inp.QueueUrl = cfg.queueUrl ∧ inp.WaitTimeSeconds = 20 ∧
        inp.AttributeNames = ["ApproximateReceiveCount"] ∧
        inp.VisibilityTimeout = visibilityTimeout cfg env) ∧
      (1 ≤ env.intBits → env.intBits ≤ 64 → 0 < cfg.timeout →
        inSigned env.intBits (cfg.timeout + 5) → cfg.timeout * 1000000000 < 2 ^ 63 →
        visibilityTimeout cfg env = cfg.timeout + 5 ∧
        ∀ req t, Event.httpDo req t ∈ (Work cfg env).1 →
          appliedTimeout t = some (cfg.timeout * 1000000000) ∧
          visibilityTimeout cfg env * 1000000000 - cfg.timeout * 1000000000
            = 5 * 1000000000) := by
  constructor
  · intro inp hmem
    have h := (Work_mem cfg env _ hmem).1 inp rfl
    subst h
    simp [receiveInput]
  · intro hb1 hb64 h0 hfit hns
    have hvis : visibilityTimeout cfg env = cfg.timeout + 5 := by
      unfold visibilityTimeout
      rw [wrapSigned_of_inSigned env.intBits _ hb1 hfit,
        toInt64_of_inSigned _ (inSigned_mono env.intBits _ hb64 hfit)]
    refine ⟨hvis, ?_⟩
    intro req t hmem
    have ht := (Work_mem cfg env _ hmem).2 req t rfl
    have h1 : inSigned 64 cfg.timeout := by
      unfold inSigned; norm_num; constructor <;> omega
    have h2 : inSigned 64 (cfg.timeout * 1000000000) := by
      unfold inSigned; norm_num; constructor <;> omega
    have hct : clientTimeout cfg = cfg.timeout * 1000000000 := by
      unfold clientTimeout
      rw [toInt64_of_inSigned _ h1, toInt64_of_inSigned _ h2]
    have hpos : 0 < cfg.timeout * 1000000000 := by omega
    refine ⟨?_, ?_⟩
    · rw [ht, hct]
      unfold appliedTimeout
      simp [hpos]
    · rw [hvis]
      ring

theorem Work_receive_parameters_witness :
    (Event.receiveMessage (receiveInput scenarioConfig (acceptingEnv "1"))
          ∈ (Work scenarioConfig (acceptingEnv "1")).1 ∧
        (receiveInput scenarioConfig (acceptingEnv "1")).MaxNumberOfMessages = 1 ∧
        (receiveInput scenarioConfig (acceptingEnv "1")).WaitTimeSeconds = 20) ∧
      (Event.httpDo (jobRequest scenarioConfig "payload") 30000000000
          ∈ (Work scenarioConfig (acceptingEnv "1")).1 ∧
        visibilityTimeout scenarioConfig (acceptingEnv "1") = 30 + 5 ∧
        appliedTimeout 30000000000 = some (30 * 1000000000) ∧
        visibilityTimeout scenarioConfig (acceptingEnv "1") * 1000000000 - 30 * 1000000000
          = 5 * 1000000000) :=
  ⟨⟨by decide,
      ((Work_receive_parameters scenarioConfig (acceptingEnv "1")).1 _ (by decide)).1,
      ((Work_receive_parameters scenarioConfig (acceptingEnv "1")).1 _ (by decide)).2.2.1⟩,
    ⟨by decide,
      ((Work_receive_parameters scenarioConfig (acceptingEnv "1")).2
        (by decide) (by decide) (by decide) (by decide) (by decide)).1,
      ((Work_receive_parameters scenarioConfig (acceptingEnv "1")).2
        (by decide) (by decide) (by decide) (by decide) (by decide)).2
        (jobRequest scenarioConfig "payload") 30000000000 (by decide)⟩⟩

/-- C9 fails as stated, at two non-negative timeouts for which `timeout + 5` does not
overflow on a 64-bit target.  At timeout 0 the HTTP call of the cycle runs with `Timeout` 0,
for which the HTTP client applies no time limit, while the visibility timeout is 5.  At
timeout 9223372037 the nanosecond count wraps to -9223372036709551616, again no time limit,
while the visibility timeout is 9223372042. -/
theorem Work_timeout_not_applied :
    (0 ≤ zeroTimeoutConfig.timeout ∧
        inSigned 64 (zeroTimeoutConfig.timeout + 5) ∧
        visibilityTimeout zeroTimeoutConfig (acceptingEnv "1") = 5 ∧
        Event.httpDo (jobRequest zeroTimeoutConfig "payload") 0 ∈
          (Work zeroTimeoutConfig (acceptingEnv "1")).1 ∧
        appliedTimeout 0 = none) ∧
      (0 ≤ longTimeoutConfig.timeout ∧
        inSigned 64 (longTimeoutConfig.timeout + 5) ∧
        visibilityTimeout longTimeoutConfig (acceptingEnv "1") = 9223372042 ∧
        Event.httpDo (jobRequest longTimeoutConfig "payload") (-9223372036709551616) ∈
          (Work longTimeoutConfig (acceptingEnv "1")).1 ∧
        appliedTimeout (-9223372036709551616) = none ∧
        (9223372042 : Int) * 1000000000 - (-9223372036709551616) ≠ 5 * 1000000000) := by
  decide

/-! ## Panics -/

/-- C7 fails on the code: with a job endpoint URL that `url.Parse` rejects, a cycle that
receives a message ends in a runtime panic (the nil request of `http.NewRequest` is
dereferenced), after the received counter and before any HTTP call; the deferred send on the
completion channel still runs once. -/
theorem Work_bad_url_panics :
    Work badUrlConfig (scenarioEnv [scenarioMessage "1"] (scenarioResponse 200 "200 OK") none) =
      ([Event.log (.text "Requesting message"),
          Event.receiveMessage (receiveInput badUrlConfig
            (scenarioEnv [scenarioMessage "1"] (scenarioResponse 200 "200 OK") none)),
          Event.log (.message (scenarioMessage "1")),
          Event.statsIncr "received" [],
          Event.chanSend],
        .panicked) := by
  decide

end Sqsd
